import Mathlib

/-!
Verification of the Protocol_database ingestion pipeline.

This file gives a shallow embedding, in Lean 4, of the core of the
clinical-trial protocol pipeline (src/src/database.py, src/src/api_client.py,
src/src/downloader.py, src/run_pipeline.py) and proves or refutes the frozen
specification claims about it.

Modelling conventions:
- Python dictionaries with optional keys become structures whose fields are
  `Option`-valued; `d.get(k)` is the field itself, `d.get(k, v)` is `.getD v`,
  and `d[k]` on a possibly-absent key is a fallible access.
- The SQLite `protocols` table becomes a `List Row`; SQL `NULL` is `none`.
- `CURRENT_TIMESTAMP` becomes an explicit `now : Nat` parameter.
- The `_get_connection` context manager (connect / commit on success /
  rollback and re-raise on failure) becomes an explicit transaction wrapper
  over `Except`: an error result leaves the prior state untouched and carries
  the propagated exception.
- The HTTP layer is represented by its observable outcomes: a per-attempt
  oracle for `_make_request`, and the ordered list of per-request results for
  the pagination loop of `search_studies`.
-/

set_option maxHeartbeats 1000000

namespace ProtocolPipeline

/-! ### String helpers (Python semantics, ASCII model) -/

/-- Python `\s` whitespace class (ASCII part). -/
def isPySpace (c : Char) : Bool :=
  c == ' ' || c == '\t' || c == '\n' || c == '\r' || c == '\x0b' || c == '\x0c'

/-- Python `\w` word-character class (ASCII part). -/
def isWordChar (c : Char) : Bool :=
  c.isAlphanum || c == '_'

/-- Does the second list occur at the head of the first? -/
def listStartsWith : List Char → List Char → Bool
  | _, [] => true
  | [], _ :: _ => false
  | c :: cs, d :: ds => c == d && listStartsWith cs ds

/-- Does `pat` occur as a contiguous sublist of `s`? -/
def listContainsSub : List Char → List Char → Bool
  | [], pat => listStartsWith [] pat
  | c :: rest, pat => listStartsWith (c :: rest) pat || listContainsSub rest pat

/-- Python's substring test `pat in s`. -/
def strContains (s pat : String) : Bool :=
  listContainsSub s.toList pat.toList

/-- Python `nct_id[-2:]`: the last two characters of a string. -/
def lastTwo (s : String) : String :=
  ⟨s.toList.drop (s.toList.length - 2)⟩

/-- Python `str.lower()` (ASCII model), defined by structural recursion so
that concrete instances reduce in the kernel. -/
def pyToLower (s : String) : String :=
  ⟨s.toList.map Char.toLower⟩

/-! ### Data model

`Payload` is the flat dictionary produced by `ClinicalTrialsAPI._parse_study`
and consumed by `ProtocolDatabase.upsert_protocol`; every field is optional
because the consumer reads each key with `.get`.  `Row` is one row of the
`protocols` table. -/

structure Payload where
  nct_id : Option String := none
  official_title : Option String := none
  brief_title : Option String := none
  sponsor : Option String := none
  sponsor_class : Option String := none
  year : Option Int := none
  start_date : Option String := none
  completion_date : Option String := none
  indication : Option String := none
  conditions : Option String := none
  phase : Option String := none
  study_type : Option String := none
  overall_status : Option String := none
  enrollment : Option Int := none
  interventions : Option String := none
  protocol_url : Option String := none
  protocol_pdf_path : Option String := none
  has_protocol_doc : Option Bool := none
  deriving DecidableEq, Repr

structure Row where
  nct_id : String
  official_title : Option String := none
  brief_title : Option String := none
  sponsor : Option String := none
  sponsor_class : Option String := none
  year : Option Int := none
  start_date : Option String := none
  completion_date : Option String := none
  indication : Option String := none
  conditions : Option String := none
  phase : Option String := none
  study_type : Option String := none
  overall_status : Option String := none
  enrollment : Option Int := none
  interventions : Option String := none
  protocol_url : Option String := none
  protocol_pdf_path : Option String := none
  has_protocol_doc : Bool := false
  created_at : Nat := 0
  updated_at : Nat := 0
  deriving DecidableEq, Repr

/-- One row of the `download_history` table. -/
structure HistEntry where
  indication : String
  download_date : Nat := 0
  studies_found : Int := 0
  protocols_downloaded : Int := 0
  new_studies : Int := 0
  updated_studies : Int := 0
  status : String := ""
  deriving DecidableEq, Repr

/-- Failure modes of a store operation (a missing/NULL `nct_id` key raises:
KeyError on `protocol_data['nct_id']`, or the NOT NULL constraint). -/
inductive DbError where
  | missingNctId
  deriving DecidableEq, Repr

/-! ### Persistence store (src/src/database.py) -/

/-- The `_get_connection` context manager: run the operation body; on success
commit its state, on failure roll back to the prior state and re-raise the
exception to the caller. -/
def _get_connection {σ α : Type} (body : σ → Except DbError (σ × α)) (s : σ) :
    σ × Except DbError α :=
  match body s with
  | .ok (s2, a) => (s2, .ok a)
  | .error e => (s, .error e)

/-- The UPDATE branch of `upsert_protocol`: every listed column is set to the
payload's value (`.get`, hence NULL when absent), `has_protocol_doc` defaults
to false, `updated_at` is set to the current time, and `created_at` and
`nct_id` are left untouched. -/
def updateRowFields (r : Row) (p : Payload) (now : Nat) : Row :=
  { r with
    official_title := p.official_title
    brief_title := p.brief_title
    sponsor := p.sponsor
    sponsor_class := p.sponsor_class
    year := p.year
    start_date := p.start_date
    completion_date := p.completion_date
    indication := p.indication
    conditions := p.conditions
    phase := p.phase
    study_type := p.study_type
    overall_status := p.overall_status
    enrollment := p.enrollment
    interventions := p.interventions
    protocol_url := p.protocol_url
    protocol_pdf_path := p.protocol_pdf_path
    has_protocol_doc := p.has_protocol_doc.getD false
    updated_at := now }

/-- The INSERT branch of `upsert_protocol`: a fresh row whose `created_at` and
`updated_at` both take the current time (`DEFAULT CURRENT_TIMESTAMP`). -/
def insertRowFields (id : String) (p : Payload) (now : Nat) : Row :=
  { nct_id := id
    official_title := p.official_title
    brief_title := p.brief_title
    sponsor := p.sponsor
    sponsor_class := p.sponsor_class
    year := p.year
    start_date := p.start_date
    completion_date := p.completion_date
    indication := p.indication
    conditions := p.conditions
    phase := p.phase
    study_type := p.study_type
    overall_status := p.overall_status
    enrollment := p.enrollment
    interventions := p.interventions
    protocol_url := p.protocol_url
    protocol_pdf_path := p.protocol_pdf_path
    has_protocol_doc := p.has_protocol_doc.getD false
    created_at := now
    updated_at := now }

/-- Body of `ProtocolDatabase.upsert_protocol` inside the connection scope:
look up the row by `nct_id`; if present run the UPDATE and return `false`,
otherwise run the INSERT and return `true`. -/
def upsertBody (p : Payload) (now : Nat) (db : List Row) :
    Except DbError (List Row × Bool) :=
  match p.nct_id with
  | none => .error .missingNctId
  | some id =>
    if db.any (fun r => r.nct_id == id) then
      .ok (db.map (fun r => if r.nct_id == id then updateRowFields r p now else r), false)
    else
      .ok (db ++ [insertRowFields id p now], true)

/-- `ProtocolDatabase.upsert_protocol`, wrapped in the connection scope. -/
def upsert_protocol (db : List Row) (p : Payload) (now : Nat) :
    List Row × Except DbError Bool :=
  _get_connection (upsertBody p now) db

/-- `ProtocolDatabase.update_pdf_path`: set the PDF path, force the
`has_protocol_doc` flag to 1 and refresh `updated_at` on the matching row. -/
def update_pdf_path (db : List Row) (nct_id pdf_path : String) (now : Nat) :
    List Row × Except DbError Unit :=
  _get_connection
    (fun s => .ok (s.map (fun r =>
      if r.nct_id == nct_id then
        { r with protocol_pdf_path := some pdf_path, has_protocol_doc := true,
                 updated_at := now }
      else r), ())) db

/-- `ProtocolDatabase.log_download`: append one row to `download_history`. -/
def log_download (hist : List HistEntry) (entry : HistEntry) :
    List HistEntry × Except DbError Unit :=
  _get_connection (fun s => .ok (s ++ [entry], ())) hist

/-- The row filter of `get_protocols_without_pdf`:
`protocol_url IS NOT NULL AND (protocol_pdf_path IS NULL OR protocol_pdf_path = '')`. -/
def missingDocPred (r : Row) : Bool :=
  r.protocol_url.isSome &&
    (r.protocol_pdf_path == none || r.protocol_pdf_path == some "")

/-- `ProtocolDatabase.get_protocols_without_pdf`.  The Python guard
`if indication:` is a truthiness test, so both `None` and the empty string
select the unscoped query. -/
def get_protocols_without_pdf (db : List Row) (indication : Option String) :
    List Row :=
  match indication with
  | some ind =>
    if ind == "" then db.filter missingDocPred
    else db.filter (fun r => missingDocPred r && r.indication == some ind)
  | none => db.filter missingDocPred

/-! ### Fetch client (src/src/api_client.py)

The nested JSON study payload, with exactly the sections and keys that
`_parse_study` reads; every level is optional, mirroring `.get(k, {})`. -/

structure LargeDoc where
  label : Option String := none
  filename : Option String := none
  deriving DecidableEq, Repr

structure LargeDocumentModule where
  largeDocs : Option (List LargeDoc) := none
  deriving DecidableEq, Repr

structure DocumentSection where
  largeDocumentModule : Option LargeDocumentModule := none
  deriving DecidableEq, Repr

structure IdentificationModule where
  nctId : Option String := none
  officialTitle : Option String := none
  briefTitle : Option String := none
  deriving DecidableEq, Repr

structure DateStruct where
  date : Option String := none
  deriving DecidableEq, Repr

structure StatusModule where
  overallStatus : Option String := none
  startDateStruct : Option DateStruct := none
  completionDateStruct : Option DateStruct := none
  deriving DecidableEq, Repr

structure LeadSponsor where
  name : Option String := none
  «class» : Option String := none
  deriving DecidableEq, Repr

structure SponsorModule where
  leadSponsor : Option LeadSponsor := none
  deriving DecidableEq, Repr

structure EnrollmentInfo where
  count : Option Int := none
  deriving DecidableEq, Repr

structure DesignModule where
  studyType : Option String := none
  phases : Option (List String) := none
  enrollmentInfo : Option EnrollmentInfo := none
  deriving DecidableEq, Repr

structure ConditionsModule where
  conditions : Option (List String) := none
  deriving DecidableEq, Repr

structure Intervention where
  type : Option String := none
  name : Option String := none
  deriving DecidableEq, Repr

structure ArmsModule where
  interventions : Option (List Intervention) := none
  deriving DecidableEq, Repr

structure ProtocolSection where
  identificationModule : Option IdentificationModule := none
  statusModule : Option StatusModule := none
  sponsorCollaboratorsModule : Option SponsorModule := none
  designModule : Option DesignModule := none
  conditionsModule : Option ConditionsModule := none
  armsInterventionsModule : Option ArmsModule := none
  deriving DecidableEq, Repr

structure StudyData where
  protocolSection : Option ProtocolSection := none
  documentSection : Option DocumentSection := none
  hasResults : Option Bool := none
  deriving DecidableEq, Repr

/-- Modelled from the spec: the external `dateutil` date parser used for year
derivation is not part of this repository; per the spec it is a permissive
parse whose only consumed output is the year, left unset on failure.  Modelled
as reading a four-digit leading year from the date string. -/
def dateutil_parse_year (s : String) : Option Int :=
  let ds := s.toList.take 4
  if ds.length == 4 && ds.all Char.isDigit then
    some (Int.ofNat (ds.foldl (fun a c => a * 10 + (c.toNat - 48)) 0))
  else none

/-- The document-URL scan of `_parse_study`: the first large-document
descriptor whose lowercased label contains `protocol` or `sap` and whose
filename is non-empty yields the composed download URL (a matching label with
an empty filename does not break the loop). -/
def protocolDocUrl (nct_id : String) : List LargeDoc → Option String
  | [] => none
  | doc :: rest =>
    let label := pyToLower (doc.label.getD "")
    let filename := doc.filename.getD ""
    if (strContains label "protocol" || strContains label "sap") && !(filename == "") then
      some ("https://clinicaltrials.gov/ProvidedDocs/" ++ lastTwo nct_id ++ "/"
        ++ nct_id ++ "/" ++ filename)
    else protocolDocUrl nct_id rest

/-- `ClinicalTrialsAPI._parse_study`: flatten the nested study payload into a
`Payload` dictionary.  Note `protocol_pdf_path` is never set here, and
`has_protocol_doc` is `protocol_url is not None`. -/
def parse_study (study_data : StudyData) (indication : String) : Payload :=
  let protocol_section := study_data.protocolSection.getD {}
  let id_module := protocol_section.identificationModule.getD {}
  let nct_id := id_module.nctId.getD ""
  let status_module := protocol_section.statusModule.getD {}
  let start_date := (status_module.startDateStruct.getD {}).date.getD ""
  let completion_date := (status_module.completionDateStruct.getD {}).date.getD ""
  let year : Option Int := if start_date == "" then none else dateutil_parse_year start_date
  let lead_sponsor := (protocol_section.sponsorCollaboratorsModule.getD {}).leadSponsor.getD {}
  let design_module := protocol_section.designModule.getD {}
  let phases := design_module.phases.getD []
  let conditions := (protocol_section.conditionsModule.getD {}).conditions.getD []
  let interventions := (protocol_section.armsInterventionsModule.getD {}).interventions.getD []
  let intervention_names :=
    interventions.map (fun i => (i.type.getD "") ++ ": " ++ (i.name.getD ""))
  let large_doc_list :=
    ((study_data.documentSection.getD {}).largeDocumentModule.getD {}).largeDocs.getD []
  let protocol_url := protocolDocUrl nct_id large_doc_list
  { nct_id := some nct_id
    official_title := some (id_module.officialTitle.getD "")
    brief_title := some (id_module.briefTitle.getD "")
    sponsor := some (lead_sponsor.name.getD "")
    sponsor_class := some (lead_sponsor.«class».getD "")
    year := year
    start_date := some start_date
    completion_date := some completion_date
    indication := some indication
    conditions := some (if conditions.isEmpty then "" else String.intercalate "; " conditions)
    phase := some (if phases.isEmpty then "N/A" else String.intercalate ", " phases)
    study_type := some (design_module.studyType.getD "")
    overall_status := some (status_module.overallStatus.getD "")
    enrollment := some ((design_module.enrollmentInfo.getD {}).count.getD 0)
    interventions := some (if intervention_names.isEmpty then ""
      else String.intercalate "; " intervention_names)
    protocol_url := protocol_url
    protocol_pdf_path := none
    has_protocol_doc := some protocol_url.isSome }

/-- One JSON response of the studies endpoint, as read by `search_studies`:
`data.get('studies', [])`, `data.get('nextPageToken')`, `data.get('totalCount', 0)`. -/
structure ApiResponse where
  studies : List StudyData := []
  nextPageToken : Option String := none
  totalCount : Int := 0
  deriving DecidableEq, Repr

/-- Recursion of `_make_request` over the remaining attempts of
`for attempt in range(retries)`.  `outcomes j` is the observable result of the
`j`-th HTTP attempt (`none` models a raised `RequestException`, which the
method catches).  The second component records the `time.sleep(2 ** attempt)`
backoff delays performed between failed attempts. -/
def makeRequestGo (outcomes : Nat → Option ApiResponse) (attempt : Nat) :
    Nat → Option ApiResponse × List Nat
  | 0 => (none, [])
  | remaining + 1 =>
    match outcomes attempt with
    | some r => (some r, [])
    | none =>
      if remaining == 0 then (none, [])
      else
        let rest := makeRequestGo outcomes (attempt + 1) remaining
        (rest.1, 2 ^ attempt :: rest.2)

/-- `ClinicalTrialsAPI._make_request` with its retry loop: returns the first
successful response, or `none` (never an exception) after `retries` failed
attempts, together with the backoff sleeps it performed. -/
def _make_request (outcomes : Nat → Option ApiResponse) (retries : Nat) :
    Option ApiResponse × List Nat :=
  makeRequestGo outcomes 0 retries

/-- The pagination loop of `ClinicalTrialsAPI.search_studies`, driven by the
ordered list of per-request results (`none` = `_make_request` exhausted its
retries for that page).  The loop breaks on a failed request, on an empty
`studies` list, and on a falsy (`None` or empty) `nextPageToken`; otherwise it
yields the parsed studies of the page and continues with the next response. -/
def search_studies (condition : String) : List (Option ApiResponse) → List Payload
  | [] => []
  | none :: _ => []
  | some resp :: rest =>
    if resp.studies.isEmpty then []
    else
      resp.studies.map (fun s => parse_study s condition) ++
        match resp.nextPageToken with
        | some t => if t == "" then [] else search_studies condition rest
        | none => []

/-- A page that keeps the pagination loop going: non-empty `studies` and a
truthy continuation token. -/
def pageContinues (r : ApiResponse) : Bool :=
  !r.studies.isEmpty &&
    (match r.nextPageToken with
     | some t => !(t == "")
     | none => false)

/-- A well-formed token chain of responses: every page except the last
continues, and the last page ends the sequence (falsy token or no results). -/
def tokenChain : List ApiResponse → Bool
  | [] => false
  | [r] =>
    (match r.nextPageToken with
     | some t => t == ""
     | none => true) || r.studies.isEmpty
  | r :: r2 :: rest => pageContinues r && tokenChain (r2 :: rest)

/-- Every page of the list continues the loop (used for the successful
responses before a failing page). -/
def allContinue : List ApiResponse → Bool
  | [] => true
  | r :: rest => pageContinues r && allContinue rest

/-- The parsed records of one page. -/
def pageItems (condition : String) (r : ApiResponse) : List Payload :=
  r.studies.map (fun s => parse_study s condition)

/-! ### Downloader and coordinator (src/src/downloader.py, src/run_pipeline.py) -/

/-- `PROTOCOLS_DIR` from src/src/config.py (`BASE_DIR / "protocols"`),
modelled by the directory's name. -/
def PROTOCOLS_DIR : String := "protocols"

/-- First pass of `_sanitize_folder_name`: `re.sub(r'[^\w\s-]', '', ...)`
keeps word characters, whitespace and hyphens and deletes everything else. -/
def sanitizeKeep (c : Char) : Bool :=
  isWordChar c || isPySpace c || c == '-'

/-- Second pass of `_sanitize_folder_name`: `re.sub(r'[\s]+', '_', ...)`
replaces every maximal run of whitespace by a single underscore. -/
def collapseWsList : List Char → List Char
  | [] => []
  | c :: rest =>
    if isPySpace c then
      match rest with
      | [] => ['_']
      | d :: _ => if isPySpace d then collapseWsList rest else '_' :: collapseWsList rest
    else c :: collapseWsList rest

/-- `ProtocolDownloader._sanitize_folder_name`: lowercase, strip the
characters outside `[\w\s-]`, then collapse whitespace runs to underscores. -/
def _sanitize_folder_name (name : String) : String :=
  ⟨collapseWsList (((pyToLower name).toList).filter sanitizeKeep)⟩

/-- The deterministic document path used by `process_indication`:
`PROTOCOLS_DIR / sanitized-indication / {nct_id}_protocol.pdf`. -/
def pdf_path_for (indication nct_id : String) : String :=
  PROTOCOLS_DIR ++ "/" ++ _sanitize_folder_name indication ++ "/"
    ++ nct_id ++ "_protocol.pdf"

/-- Per-indication statistics accumulated by `process_indication`. -/
structure OrchStats where
  indication : String
  studies_found : Nat := 0
  new_studies : Nat := 0
  updated_studies : Nat := 0
  protocols_downloaded : Nat := 0
  download_errors : Nat := 0
  deriving DecidableEq, Repr

/-- The document-retrieval step of `ProtocolDownloader.process_indication`
(lines 122-138) for one study, after its upsert.  `fs` is the set of files
present on disk, `dl_ok` the observable outcome of `download_pdf` (which
catches its own exceptions and returns a Bool).  The guard on
`study_data.get('protocol_url')` is a truthiness test, so an empty-string URL
skips the block like a missing one.  If the file already exists the step is a
no-op; on a successful download the path is recorded via `update_pdf_path`
and the downloaded counter advances; on a failed download only the error
counter advances. -/
def process_study_doc (download_pdfs : Bool) (fs : List String) (dl_ok : Bool)
    (indication : String) (study_data : Payload) (nct_id : String)
    (db : List Row) (stats : OrchStats) (now : Nat) :
    List Row × OrchStats × List String :=
  match study_data.protocol_url with
  | some url =>
    if download_pdfs && !(url == "") then
      let pdf_path := pdf_path_for indication nct_id
      if fs.contains pdf_path then (db, stats, fs)
      else if dl_ok then
        ((update_pdf_path db nct_id pdf_path now).1,
         { stats with protocols_downloaded := stats.protocols_downloaded + 1 },
         pdf_path :: fs)
      else
        (db, { stats with download_errors := stats.download_errors + 1 }, fs)
    else (db, stats, fs)
  | none => (db, stats, fs)

/-- One entry of the `all_stats` list built by `PipelineRunner.run`: either
the statistics dict returned by `process_indication`, or the
`{'indication': ..., 'error': str(e)}` dict recorded when it raised. -/
inductive TermResult where
  | stats (s : OrchStats)
  | errorEntry (indication : String) (error : String)
  deriving DecidableEq, Repr

/-- The per-term loop of `PipelineRunner.run`: terms are processed strictly
in list order; a term whose processing raises is caught, recorded as an error
entry, and the loop continues with the next term.  `process_indication`
abstracts `ProtocolDownloader.process_indication`, whose failures originate
in external I/O. -/
def PipelineRunner.run (process_indication : String → Except String OrchStats) :
    List String → List TermResult
  | [] => []
  | ind :: rest =>
    (match process_indication ind with
     | .ok s => TermResult.stats s
     | .error e => TermResult.errorEntry ind e) ::
      PipelineRunner.run process_indication rest

/-! ### Shared lemmas -/

/-- `_parse_study` computes `has_protocol_doc` as `protocol_url is not None`. -/
theorem parse_study_flag (sd : StudyData) (cond : String) :
    (parse_study sd cond).has_protocol_doc = some (parse_study sd cond).protocol_url.isSome :=
  rfl

/-- `_parse_study` always sets the `nct_id` key. -/
theorem parse_study_nct (sd : StudyData) (cond : String) :
    (parse_study sd cond).nct_id =
      some (((sd.protocolSection.getD {}).identificationModule.getD {}).nctId.getD "") :=
  rfl

/-- `_parse_study` never sets the `protocol_pdf_path` key. -/
theorem parse_study_pdf_path (sd : StudyData) (cond : String) :
    (parse_study sd cond).protocol_pdf_path = none :=
  rfl

theorem updateRowFields_nct (r : Row) (p : Payload) (now : Nat) :
    (updateRowFields r p now).nct_id = r.nct_id := rfl

theorem insertRowFields_nct (id : String) (p : Payload) (now : Nat) :
    (insertRowFields id p now).nct_id = id := rfl

/-- Shape of `upsert_protocol` when the row already exists. -/
theorem upsert_protocol_update (db : List Row) (p : Payload) (id : String) (now : Nat)
    (hid : p.nct_id = some id) (hex : db.any (fun r => r.nct_id == id) = true) :
    upsert_protocol db p now =
      (db.map (fun r => if r.nct_id == id then updateRowFields r p now else r), .ok false) := by
  simp [upsert_protocol, _get_connection, upsertBody, hid, hex]

/-- Shape of `upsert_protocol` when the row is new. -/
theorem upsert_protocol_insert (db : List Row) (p : Payload) (id : String) (now : Nat)
    (hid : p.nct_id = some id) (hex : db.any (fun r => r.nct_id == id) = false) :
    upsert_protocol db p now = (db ++ [insertRowFields id p now], .ok true) := by
  simp [upsert_protocol, _get_connection, upsertBody, hid, hex]

/-! ### Claim C1 — document-path preservation under upsert -/

def c1_row : Row :=
  { nct_id := "NCT00000001"
    indication := some "obesity"
    protocol_url := some "https://clinicaltrials.gov/ProvidedDocs/01/NCT00000001/Prot.pdf"
    protocol_pdf_path := some "protocols/obesity/NCT00000001_protocol.pdf"
    has_protocol_doc := true
    created_at := 5
    updated_at := 5 }

def c1_payload : Payload := { nct_id := some "NCT00000001" }

/-- C1, counterexample: a stored row with a recorded local document path, and
an upsert for the same ID whose payload has no document URL and no local
path.  The claim says the stored path stays unchanged; the code's UPDATE
branch sets `protocol_pdf_path` to the payload's (absent, hence NULL) value
and clears it. -/
theorem c1_counterexample :
    c1_payload.protocol_url = none ∧ c1_payload.protocol_pdf_path = none ∧
    c1_row.protocol_pdf_path = some "protocols/obesity/NCT00000001_protocol.pdf" ∧
    (upsert_protocol [c1_row] c1_payload 7).2 = .ok false ∧
    (upsert_protocol [c1_row] c1_payload 7).1.map Row.protocol_pdf_path = [none] := by
  exact ⟨rfl, rfl, rfl, by rfl, by decide⟩

/-- C1, amended: upsert on an existing ID overwrites the stored local
document path with the payload's value, so a payload that supplies no local
path (whether or not it has a document URL) clears the recorded path to NULL
rather than preserving it. -/
theorem c1_theorem (db : List Row) (p : Payload) (id : String) (now : Nat) (r : Row)
    (hid : p.nct_id = some id) (hpath : p.protocol_pdf_path = none)
    (hr : r ∈ (upsert_protocol db p now).1) (hrid : r.nct_id = id) :
    r.protocol_pdf_path = none := by
  cases hex : db.any (fun r => r.nct_id == id) with
  | true =>
    rw [upsert_protocol_update db p id now hid hex] at hr
    obtain ⟨s, _, hs⟩ := List.mem_map.mp hr
    by_cases hsid : s.nct_id = id
    · rw [if_pos (by simpa using hsid)] at hs
      rw [← hs]
      simp [updateRowFields, hpath]
    · rw [if_neg (by simpa using hsid)] at hs
      exact absurd (hs ▸ hrid) hsid
  | false =>
    rw [upsert_protocol_insert db p id now hid hex] at hr
    rcases List.mem_append.mp hr with hin | hnew
    · rw [List.any_eq_false] at hex
      exact absurd (by simpa using hrid) (hex r hin)
    · rw [List.mem_singleton.mp hnew]
      simp [insertRowFields, hpath]

/-- C1 witness: the amended theorem instantiated on the concrete row and
payload of the counterexample. -/
theorem c1_witness :
    (updateRowFields c1_row c1_payload 7).protocol_pdf_path = none :=
  c1_theorem [c1_row] c1_payload "NCT00000001" 7 (updateRowFields c1_row c1_payload 7)
    rfl rfl (by decide) (by decide)

/-! ### Claim C2 — has-document flag vs recorded local path -/

def c2_study : StudyData :=
  { protocolSection := some { identificationModule := some { nctId := some "NCT00000002" } }
    documentSection := some { largeDocumentModule := some { largeDocs := some [{ label := some "Study Protocol", filename := some "Prot_000.pdf" }] } } }

def c2_db : List Row := (upsert_protocol [] (parse_study c2_study "obesity") 3).1

/-- C2, counterexample: upserting the parsed record of a study that carries a
protocol document produces a reachable store whose single row has
`has_protocol_doc = true` but no recorded local path — the flag is computed
from the document URL (`protocol_url is not None`), not from the local path,
so the claimed invariant fails already after one operation. -/
theorem c2_counterexample :
    ¬ (∀ r ∈ c2_db, r.has_protocol_doc = true ↔ r.protocol_pdf_path.isSome = true) := by
  decide

/-- The invariant the code actually maintains: the flag is true iff a
document URL is recorded for the row. -/
def FlagUrlInv (db : List Row) : Prop :=
  ∀ r ∈ db, r.has_protocol_doc = r.protocol_url.isSome

/-- C2, amended: the has-document flag tracks the document URL, not the local
path: it is true iff a document URL is recorded.  Upserting any parsed
record preserves this invariant, and `update_pdf_path` preserves it at every
pipeline call site (which only invoke it for a row whose document URL is
present). -/
theorem c2_theorem :
    (∀ (db : List Row) (sd : StudyData) (cond : String) (now : Nat),
      FlagUrlInv db → FlagUrlInv (upsert_protocol db (parse_study sd cond) now).1) ∧
    (∀ (db : List Row) (id path : String) (now : Nat),
      (∀ r ∈ db, r.nct_id = id → r.protocol_url.isSome = true) →
      FlagUrlInv db → FlagUrlInv (update_pdf_path db id path now).1) := by
  constructor
  · intro db sd cond now hinv r hr
    cases hex : db.any (fun s => s.nct_id == (((sd.protocolSection.getD {}).identificationModule.getD {}).nctId.getD "")) with
    | true =>
      rw [upsert_protocol_update db _ _ now (parse_study_nct sd cond) hex] at hr
      obtain ⟨s, hs, hmap⟩ := List.mem_map.mp hr
      by_cases hsid : s.nct_id = (((sd.protocolSection.getD {}).identificationModule.getD {}).nctId.getD "")
      · rw [if_pos (by simpa using hsid)] at hmap
        rw [← hmap]
        simp [updateRowFields, parse_study_flag]
      · rw [if_neg (by simpa using hsid)] at hmap
        exact hmap ▸ hinv s hs
    | false =>
      rw [upsert_protocol_insert db _ _ now (parse_study_nct sd cond) hex] at hr
      rcases List.mem_append.mp hr with hin | hnew
      · exact hinv r hin
      · rw [List.mem_singleton.mp hnew]
        simp [insertRowFields, parse_study_flag]
  · intro db id path now hurl hinv r hr
    simp only [update_pdf_path, _get_connection] at hr
    obtain ⟨s, hs, hmap⟩ := List.mem_map.mp hr
    by_cases hsid : s.nct_id = id
    · rw [if_pos (by simpa using hsid)] at hmap
      rw [← hmap]
      simpa using (hurl s hs hsid).symm
    · rw [if_neg (by simpa using hsid)] at hmap
      exact hmap ▸ hinv s hs

/-- C2 witness: the amended invariant on the concrete reachable store of the
counterexample (whose flag is true because its URL is present), preserved
through a subsequent `update_pdf_path` for that row. -/
theorem c2_witness :
    FlagUrlInv (upsert_protocol [] (parse_study c2_study "obesity") 3).1 ∧
    FlagUrlInv (update_pdf_path c2_db "NCT00000002"
      "protocols/obesity/NCT00000002_protocol.pdf" 4).1 :=
  ⟨c2_theorem.1 [] c2_study "obesity" 3 (fun r hr => absurd hr (List.not_mem_nil r)),
   c2_theorem.2 c2_db "NCT00000002" "protocols/obesity/NCT00000002_protocol.pdf" 4
     (by decide)
     (by show ∀ r ∈ c2_db, r.has_protocol_doc = r.protocol_url.isSome; decide)⟩

/-! ### Claim C3 — idempotent upsert -/

/-- C3: upserting two records with the same registry ID into a store that
does not yet contain the ID yields exactly one row for it; the first call
returns `true` (new) and stamps both timestamps with its time, the second
returns `false` (updated), keeps the creation timestamp and advances the
update timestamp to the later time. -/
theorem c3_theorem (db : List Row) (p1 p2 : Payload) (id : String) (t1 t2 : Nat)
    (h1 : p1.nct_id = some id) (h2 : p2.nct_id = some id)
    (habs : ∀ r ∈ db, ¬ r.nct_id = id) (ht : t1 < t2) :
    (upsert_protocol db p1 t1).2 = .ok true ∧
    (∀ r ∈ (upsert_protocol db p1 t1).1, r.nct_id = id →
      r.created_at = t1 ∧ r.updated_at = t1) ∧
    (upsert_protocol (upsert_protocol db p1 t1).1 p2 t2).2 = .ok false ∧
    ((upsert_protocol (upsert_protocol db p1 t1).1 p2 t2).1.filter
        (fun r => r.nct_id == id)).length = 1 ∧
    (∀ r ∈ (upsert_protocol (upsert_protocol db p1 t1).1 p2 t2).1, r.nct_id = id →
      r.created_at = t1 ∧ r.updated_at = t2 ∧ t1 < t2) := by
  have hany1 : db.any (fun r => r.nct_id == id) = false := by
    rw [List.any_eq_false]
    intro r hr
    simpa using habs r hr
  have e1 := upsert_protocol_insert db p1 id t1 h1 hany1
  have hany2 : (db ++ [insertRowFields id p1 t1]).any (fun r => r.nct_id == id) = true := by
    simp [insertRowFields]
  have e2 := upsert_protocol_update (db ++ [insertRowFields id p1 t1]) p2 id t2 h2 hany2
  have hfst1 : (upsert_protocol db p1 t1).1 = db ++ [insertRowFields id p1 t1] := by rw [e1]
  have hsnd1 : (upsert_protocol db p1 t1).2 = .ok true := by rw [e1]
  have hmapdb : db.map (fun r => if r.nct_id == id then updateRowFields r p2 t2 else r)
      = db := by
    conv_rhs => rw [← List.map_id db]
    refine List.map_congr_left ?_
    intro r hr
    rw [if_neg (by simpa using habs r hr)]
    rfl
  have hdb2 : (upsert_protocol (upsert_protocol db p1 t1).1 p2 t2).1 =
      db ++ [updateRowFields (insertRowFields id p1 t1) p2 t2] := by
    rw [hfst1, e2]
    simp only [List.map_append, hmapdb, List.map_cons, List.map_nil]
    simp [insertRowFields]
  have hsnd2 : (upsert_protocol (upsert_protocol db p1 t1).1 p2 t2).2 = .ok false := by
    rw [hfst1, e2]
  refine ⟨hsnd1, ?_, hsnd2, ?_, ?_⟩
  · intro r hr hrid
    rw [hfst1] at hr
    rcases List.mem_append.mp hr with hin | hnew
    · exact absurd hrid (habs r hin)
    · rw [List.mem_singleton.mp hnew]
      exact ⟨rfl, rfl⟩
  · rw [hdb2, List.filter_append]
    have hfiltdb : db.filter (fun r => r.nct_id == id) = [] := by
      rw [List.filter_eq_nil_iff]
      intro r hr
      simpa using habs r hr
    rw [hfiltdb]
    simp [updateRowFields, insertRowFields]
  · intro r hr hrid
    rw [hdb2] at hr
    rcases List.mem_append.mp hr with hin | hupd
    · exact absurd hrid (habs r hin)
    · rw [List.mem_singleton.mp hupd]
      exact ⟨rfl, rfl, ht⟩

/-- C3 witness: two concrete upserts of the same ID with different titles
into the empty store. -/
theorem c3_witness :
    (upsert_protocol [] { nct_id := some "NCT9", brief_title := some "a" } 1).2 = .ok true ∧
    (∀ r ∈ (upsert_protocol [] { nct_id := some "NCT9", brief_title := some "a" } 1).1,
      r.nct_id = "NCT9" → r.created_at = 1 ∧ r.updated_at = 1) ∧
    (upsert_protocol (upsert_protocol [] { nct_id := some "NCT9", brief_title := some "a" } 1).1
        { nct_id := some "NCT9", brief_title := some "b" } 2).2 = .ok false ∧
    ((upsert_protocol (upsert_protocol [] { nct_id := some "NCT9", brief_title := some "a" } 1).1
        { nct_id := some "NCT9", brief_title := some "b" } 2).1.filter
        (fun r => r.nct_id == "NCT9")).length = 1 ∧
    (∀ r ∈ (upsert_protocol (upsert_protocol [] { nct_id := some "NCT9", brief_title := some "a" } 1).1
        { nct_id := some "NCT9", brief_title := some "b" } 2).1, r.nct_id = "NCT9" →
      r.created_at = 1 ∧ r.updated_at = 2 ∧ 1 < 2) :=
  c3_theorem [] { nct_id := some "NCT9", brief_title := some "a" }
    { nct_id := some "NCT9", brief_title := some "b" } "NCT9" 1 2 rfl rfl
    (fun r hr => absurd hr (List.not_mem_nil r)) (by decide)

/-! ### Claim C4 — pagination completeness -/

/-- One-step unfolding of the pagination loop on a successful response. -/
theorem search_studies_step (condition : String) (r : ApiResponse)
    (rest : List (Option ApiResponse)) :
    search_studies condition (some r :: rest) =
      (if r.studies.isEmpty then []
       else pageItems condition r ++
         match r.nextPageToken with
         | some t => if t == "" then [] else search_studies condition rest
         | none => []) :=
  rfl

/-- The pagination loop on a page that continues (non-empty results, truthy
continuation token): yield the page and keep going. -/
theorem search_studies_continue (condition : String) (r : ApiResponse)
    (rest : List (Option ApiResponse)) (t : String)
    (hne : r.studies.isEmpty = false) (ht : r.nextPageToken = some t)
    (htne : (t == "") = false) :
    search_studies condition (some r :: rest) =
      pageItems condition r ++ search_studies condition rest := by
  rw [search_studies_step, if_neg (by simp [hne]), ht]
  simp [htne]

/-- C4: over a token chain of pages with no request failures, the pagination
loop yields exactly the parsed items of every page, in page order with each
page's items in page order, and terminates at the first page with a falsy
continuation token or no results — any further responses (`extra`) are never
requested and never contribute items. -/
theorem c4_theorem (condition : String) (pages : List ApiResponse)
    (hchain : tokenChain pages = true) (extra : List (Option ApiResponse)) :
    search_studies condition (pages.map some ++ extra) =
      (pages.map (pageItems condition)).flatten := by
  induction pages with
  | nil => exact absurd hchain (by simp [tokenChain])
  | cons r rest ih =>
    cases rest with
    | nil =>
      simp only [tokenChain, Bool.or_eq_true] at hchain
      simp only [List.map_cons, List.map_nil, List.nil_append, List.cons_append,
        List.flatten_cons, List.flatten_nil, List.append_nil]
      rw [search_studies_step]
      rcases hchain with htok | hemp
      · cases hs : r.studies.isEmpty with
        | true =>
          rw [if_pos rfl]
          simp [pageItems, List.isEmpty_iff.mp hs]
        | false =>
          rw [if_neg (by simp [hs])]
          cases ht : r.nextPageToken with
          | none => simp
          | some t =>
            rw [ht] at htok
            simp only at htok
            simp [htok]
      · rw [if_pos (by simp [hemp])]
        simp [pageItems, List.isEmpty_iff.mp hemp]
    | cons r2 rest2 =>
      simp only [tokenChain, Bool.and_eq_true] at hchain
      obtain ⟨hcont, hchain2⟩ := hchain
      simp only [pageContinues, Bool.and_eq_true, Bool.not_eq_true'] at hcont
      obtain ⟨hne, htok⟩ := hcont
      cases ht : r.nextPageToken with
      | none => rw [ht] at htok; exact absurd htok (by simp)
      | some t =>
        rw [ht] at htok
        simp only [Bool.not_eq_true'] at htok
        simp only [List.map_cons, List.cons_append] at ih ⊢
        rw [search_studies_continue condition r _ t hne ht (by simpa using htok)]
        rw [ih hchain2]
        simp [List.flatten_cons]

/-- C4 witness: a concrete two-page token chain followed by a junk response
that must never be requested. -/
theorem c4_witness :
    search_studies "obesity"
        ([({ studies := [c2_study], nextPageToken := some "tok1" } : ApiResponse),
          ({ studies := [{}], nextPageToken := none } : ApiResponse)].map some ++ [none]) =
      ([({ studies := [c2_study], nextPageToken := some "tok1" } : ApiResponse),
        ({ studies := [{}], nextPageToken := none } : ApiResponse)].map
          (pageItems "obesity")).flatten :=
  c4_theorem "obesity"
    [{ studies := [c2_study], nextPageToken := some "tok1" },
     { studies := [{}], nextPageToken := none }] (by decide) [none]

/-! ### Claim C5 — retry exhaustion ends the sequence without raising -/

/-- One-step unfolding of the retry loop. -/
theorem makeRequestGo_succ (outcomes : Nat → Option ApiResponse) (a n : Nat) :
    makeRequestGo outcomes a (n + 1) =
      match outcomes a with
      | some r => (some r, [])
      | none =>
        if n == 0 then (none, [])
        else ((makeRequestGo outcomes (a + 1) n).1,
          2 ^ a :: (makeRequestGo outcomes (a + 1) n).2) :=
  rfl

/-- A failed attempt with no attempts left: the loop returns `None`. -/
theorem makeRequestGo_fail_last (outcomes : Nat → Option ApiResponse) (a : Nat)
    (h : outcomes a = none) : makeRequestGo outcomes a 1 = (none, []) := by
  conv_lhs => rw [makeRequestGo_succ outcomes a 0]
  rw [h]
  rfl

/-- A failed attempt with attempts left: sleep `2^attempt` and retry. -/
theorem makeRequestGo_fail_step (outcomes : Nat → Option ApiResponse) (a n : Nat)
    (h : outcomes a = none) (hn : n ≠ 0) :
    makeRequestGo outcomes a (n + 1) =
      ((makeRequestGo outcomes (a + 1) n).1,
        2 ^ a :: (makeRequestGo outcomes (a + 1) n).2) := by
  conv_lhs => rw [makeRequestGo_succ outcomes a n]
  rw [h]
  dsimp only
  rw [if_neg (by simp [hn])]

/-- Helper: when every attempt in the window fails, the retry loop of
`_make_request` returns `none` after sleeping `2^a, 2^(a+1), …` between
consecutive failed attempts. -/
theorem makeRequestGo_all_fail (outcomes : Nat → Option ApiResponse) :
    ∀ n a, 1 ≤ n → (∀ j, a ≤ j → j < a + n → outcomes j = none) →
    makeRequestGo outcomes a n = (none, (List.range' a (n - 1)).map (fun i => 2 ^ i)) := by
  intro n
  induction n with
  | zero => omega
  | succ m ih =>
    intro a _ hfail
    cases m with
    | zero =>
      simpa using makeRequestGo_fail_last outcomes a (hfail a le_rfl (by omega))
    | succ k =>
      have hrest := ih (a + 1) (by omega) (fun j hj1 hj2 => hfail j (by omega) (by omega))
      rw [makeRequestGo_fail_step outcomes a (k + 1) (hfail a le_rfl (by omega)) (by omega)]
      rw [hrest]
      simp [List.range'_succ]

/-- C5: when one page's request fails transiently on all `R` consecutive
attempts (`R` ≥ 1 the configured retry bound), the fetch sequence ends
without raising — the loop just breaks on the `None` result — having yielded
exactly the records of the pages that succeeded before it, and the client
slept `2^0, 2^1, …` seconds between the failed attempts (exponentially
doubling backoff). -/
theorem c5_theorem (condition : String) (good : List ApiResponse)
    (outcomes : Nat → Option ApiResponse) (R : Nat)
    (hgood : allContinue good = true) (hR : 1 ≤ R)
    (hfail : ∀ j, j < R → outcomes j = none) :
    search_studies condition (good.map some ++ [(_make_request outcomes R).1]) =
      (good.map (pageItems condition)).flatten ∧
    (_make_request outcomes R).2 = (List.range (R - 1)).map (fun i => 2 ^ i) := by
  have hmr : _make_request outcomes R =
      (none, (List.range' 0 (R - 1)).map (fun i => 2 ^ i)) :=
    makeRequestGo_all_fail outcomes R 0 hR (fun j _ hj2 => hfail j (by omega))
  have hmr1 : (_make_request outcomes R).1 = none := by rw [hmr]
  constructor
  · rw [hmr1]
    induction good with
    | nil => rfl
    | cons r rest ih =>
      simp only [allContinue, Bool.and_eq_true] at hgood
      obtain ⟨hcont, hrest⟩ := hgood
      simp only [pageContinues, Bool.and_eq_true, Bool.not_eq_true'] at hcont
      obtain ⟨hne, htok⟩ := hcont
      cases ht : r.nextPageToken with
      | none => rw [ht] at htok; exact absurd htok (by simp)
      | some t =>
        rw [ht] at htok
        simp only [Bool.not_eq_true'] at htok
        simp only [List.map_cons, List.cons_append] at ih ⊢
        rw [search_studies_continue condition r _ t hne ht (by simpa using htok)]
        rw [ih hrest]
        simp [List.flatten_cons]
  · rw [hmr]
    simp [List.range_eq_range']

/-- C5 witness: one successful page, then a page whose three attempts all
fail. -/
theorem c5_witness :
    search_studies "obesity"
        ([({ studies := [c2_study], nextPageToken := some "tok" } : ApiResponse)].map some ++
          [(_make_request (fun _ => none) 3).1]) =
      ([({ studies := [c2_study], nextPageToken := some "tok" } : ApiResponse)].map
        (pageItems "obesity")).flatten ∧
    (_make_request (fun _ => none) 3).2 = (List.range (3 - 1)).map (fun i => 2 ^ i) :=
  c5_theorem "obesity" [{ studies := [c2_study], nextPageToken := some "tok" }]
    (fun _ => none) 3 (by decide) (by decide) (fun _ _ => rfl)

/-! ### Claim C6 — partial-failure isolation across terms -/

/-- C6: for terms `[A, B, C]` where processing `B` raises, the coordinator
catches the exception; the run result contains the successful statistics for
`A` and `C` and an error entry for `B`, in order — `B`'s failure does not
prevent `C` from being processed. -/
theorem c6_theorem (f : String → Except String OrchStats) (A B C : String)
    (sA sC : OrchStats) (e : String)
    (hA : f A = .ok sA) (hB : f B = .error e) (hC : f C = .ok sC) :
    PipelineRunner.run f [A, B, C] =
      [TermResult.stats sA, TermResult.errorEntry B e, TermResult.stats sC] := by
  simp [PipelineRunner.run, hA, hB, hC]

def c6_f : String → Except String OrchStats := fun t =>
  if t = "beta" then .error "boom" else .ok { indication := t }

/-- C6 witness: a concrete processing function that raises exactly on the
middle term. -/
theorem c6_witness :
    PipelineRunner.run c6_f ["alpha", "beta", "gamma"] =
      [TermResult.stats { indication := "alpha" },
       TermResult.errorEntry "beta" "boom",
       TermResult.stats { indication := "gamma" }] :=
  c6_theorem c6_f "alpha" "beta" "gamma" { indication := "alpha" }
    { indication := "gamma" } "boom" rfl rfl rfl

/-! ### Claim C7 — missing-documents query -/

def c7_row : Row := { nct_id := "NCT0007", protocol_url := some "", protocol_pdf_path := none }

/-- C7, counterexample: the query filters on `protocol_url IS NOT NULL`, not
on a non-empty URL — a row whose document URL is the empty string (non-NULL)
and whose path is unset is returned, although the claim says a row appears
only if its URL is non-empty. -/
theorem c7_counterexample :
    c7_row.protocol_url = some "" ∧
    get_protocols_without_pdf [c7_row] none = [c7_row] := by
  exact ⟨rfl, by decide⟩

/-- C7, amended: a row appears in the missing-documents result iff its
document URL is present (non-NULL — possibly the empty string) and its local
path is NULL or empty; under a non-empty term scope, additionally iff its
term equals the scope, while an empty-string scope is treated like no scope
(Python truthiness). -/
theorem c7_theorem (db : List Row) (r : Row) :
    (r ∈ get_protocols_without_pdf db none ↔
      r ∈ db ∧ r.protocol_url.isSome = true ∧
        (r.protocol_pdf_path = none ∨ r.protocol_pdf_path = some "")) ∧
    (∀ s : String, ¬ s = "" →
      (r ∈ get_protocols_without_pdf db (some s) ↔
        r ∈ db ∧ r.protocol_url.isSome = true ∧
          (r.protocol_pdf_path = none ∨ r.protocol_pdf_path = some "") ∧
          r.indication = some s)) ∧
    get_protocols_without_pdf db (some "") = get_protocols_without_pdf db none := by
  refine ⟨?_, ?_, ?_⟩
  · rw [get_protocols_without_pdf, List.mem_filter]
    simp [missingDocPred, Bool.and_eq_true, Bool.or_eq_true, and_assoc]
  · intro s hs
    rw [get_protocols_without_pdf, if_neg (by simpa using hs), List.mem_filter]
    simp [missingDocPred, Bool.and_eq_true, Bool.or_eq_true, and_assoc]
  · rfl

/-- C7 witness: the amended characterization instantiated on the concrete
store of the counterexample, unscoped and under a non-empty term scope. -/
theorem c7_witness :
    (c7_row ∈ get_protocols_without_pdf [c7_row] none ↔
      c7_row ∈ [c7_row] ∧ c7_row.protocol_url.isSome = true ∧
        (c7_row.protocol_pdf_path = none ∨ c7_row.protocol_pdf_path = some "")) ∧
    (c7_row ∈ get_protocols_without_pdf [c7_row] (some "obesity") ↔
      c7_row ∈ [c7_row] ∧ c7_row.protocol_url.isSome = true ∧
        (c7_row.protocol_pdf_path = none ∨ c7_row.protocol_pdf_path = some "") ∧
        c7_row.indication = some "obesity") :=
  ⟨(c7_theorem [c7_row] c7_row).1,
   (c7_theorem [c7_row] c7_row).2.1 "obesity" (by decide)⟩

/-! ### Claim C8 — scoped transactions: rollback, propagation, commit -/

/-- C8: every mutating store operation runs through the `_get_connection`
scope.  For `upsert_protocol`: any internal failure (here the fallible access
to the `nct_id` key) rolls the state back — the store after the call is
exactly the prior store — and the exception is returned to the caller rather
than swallowed; on success the body's state is committed together with its
result.  `update_pdf_path` and `log_download` run in the same scope and
their bodies cannot fail, so they always commit (`log_download` appending
exactly its entry). -/
theorem c8_theorem (db : List Row) (p : Payload) (now : Nat)
    (id path : String) (hist : List HistEntry) (entry : HistEntry) :
    (∀ e, (upsert_protocol db p now).2 = .error e → (upsert_protocol db p now).1 = db) ∧
    (p.nct_id = none → upsert_protocol db p now = (db, .error .missingNctId)) ∧
    (∀ db2 b, upsertBody p now db = .ok (db2, b) →
      upsert_protocol db p now = (db2, .ok b)) ∧
    (update_pdf_path db id path now).2 = .ok () ∧
    (log_download hist entry).2 = .ok () ∧
    (log_download hist entry).1 = hist ++ [entry] := by
  refine ⟨?_, ?_, ?_, rfl, rfl, rfl⟩
  · intro e he
    cases hb : upsertBody p now db with
    | ok v => simp [upsert_protocol, _get_connection, hb] at he
    | error e2 => simp [upsert_protocol, _get_connection, hb]
  · intro hn
    simp [upsert_protocol, _get_connection, upsertBody, hn]
  · intro db2 b hb
    simp [upsert_protocol, _get_connection, hb]

/-- C8 witness: a payload whose `nct_id` key is absent fails, propagates the
error and leaves the (empty) store rolled back and intact; a payload with an
ID succeeds and commits the inserted row. -/
theorem c8_witness :
    upsert_protocol [] ({ nct_id := none } : Payload) 0 = ([], .error .missingNctId) ∧
    upsert_protocol [] ({ nct_id := some "NCT1" } : Payload) 0 =
      ([insertRowFields "NCT1" { nct_id := some "NCT1" } 0], .ok true) :=
  ⟨(c8_theorem [] { nct_id := none } 0 "NCT1" "p.pdf" [] { indication := "obesity" }).2.1 rfl,
   (c8_theorem [] { nct_id := some "NCT1" } 0 "NCT1" "p.pdf" []
      { indication := "obesity" }).2.2.1
     [insertRowFields "NCT1" { nct_id := some "NCT1" } 0] true rfl⟩

/-! ### Claim C9 — folder-name derivation and document filename -/

/-- Whitespace-run collapsing as a one-pass scan: `prevSpace` records whether
the previous character was part of a whitespace run; each maximal run emits a
single underscore at its first character. -/
def specCollapseGo : Bool → List Char → List Char
  | _, [] => []
  | prevSpace, c :: rest =>
    if isPySpace c then
      if prevSpace then specCollapseGo true rest
      else '_' :: specCollapseGo true rest
    else c :: specCollapseGo false rest

theorem specCollapseGo_cons (b : Bool) (c : Char) (l : List Char) :
    specCollapseGo b (c :: l) =
      if isPySpace c then
        (if b then specCollapseGo true l else '_' :: specCollapseGo true l)
      else c :: specCollapseGo false l :=
  rfl

theorem collapseWsList_one (c : Char) :
    collapseWsList [c] = if isPySpace c then ['_'] else [c] :=
  rfl

theorem collapseWsList_cons2 (c d : Char) (r : List Char) :
    collapseWsList (c :: d :: r) =
      if isPySpace c then
        (if isPySpace d then collapseWsList (d :: r) else '_' :: collapseWsList (d :: r))
      else c :: collapseWsList (d :: r) :=
  rfl

theorem collapseWsList_cons_nonspace (c : Char) (l : List Char)
    (h : isPySpace c = false) : collapseWsList (c :: l) = c :: collapseWsList l := by
  cases l with
  | nil => rw [collapseWsList_one, if_neg (by simp [h])]; rfl
  | cons d r => rw [collapseWsList_cons2, if_neg (by simp [h])]

/-- The two-pass lookahead collapse of the code and the one-pass scan agree:
proved by strong induction on the list length, jointly with the behaviour on
a leading whitespace character. -/
theorem collapse_eq_aux : ∀ n : Nat, ∀ l : List Char, l.length ≤ n →
    (collapseWsList l = specCollapseGo false l ∧
     ∀ c, isPySpace c = true → collapseWsList (c :: l) = '_' :: specCollapseGo true l) := by
  intro n
  induction n with
  | zero =>
    intro l hl
    have hnil : l = [] := List.eq_nil_of_length_eq_zero (Nat.le_zero.mp hl)
    subst hnil
    refine ⟨rfl, ?_⟩
    intro c hc
    rw [collapseWsList_one, if_pos (by simp [hc])]
    rfl
  | succ n ih =>
    intro l hl
    constructor
    · cases l with
      | nil => rfl
      | cons c rest =>
        have hr : rest.length ≤ n := by
          simp only [List.length_cons] at hl
          omega
        by_cases hc : isPySpace c = true
        · rw [(ih rest hr).2 c hc, specCollapseGo_cons, if_pos (by simp [hc])]
          simp
        · rw [collapseWsList_cons_nonspace c rest (by simpa using hc),
            (ih rest hr).1, specCollapseGo_cons, if_neg (by simp [hc])]
    · intro c hc
      cases l with
      | nil =>
        rw [collapseWsList_one, if_pos (by simp [hc])]
        rfl
      | cons d r =>
        have hrlen : r.length ≤ n := by
          simp only [List.length_cons] at hl
          omega
        by_cases hd : isPySpace d = true
        · rw [collapseWsList_cons2, if_pos (by simp [hc]), if_pos (by simp [hd]),
            (ih r hrlen).2 d hd, specCollapseGo_cons, if_pos (by simp [hd])]
          simp
        · rw [collapseWsList_cons2, if_pos (by simp [hc]), if_neg (by simp [hd]),
            collapseWsList_cons_nonspace d r (by simpa using hd), (ih r hrlen).1,
            specCollapseGo_cons, if_neg (by simp [hd])]

theorem collapseWsList_eq_spec (l : List Char) :
    collapseWsList l = specCollapseGo false l :=
  (collapse_eq_aux l.length l le_rfl).1

/-- Folder-name derivation as the amended spec words it: lowercase the term,
drop every character that is neither a word character, whitespace, nor a
hyphen, and replace every maximal whitespace run by a single underscore. -/
def spec_folder_name (name : String) : String :=
  ⟨specCollapseGo false (((pyToLower name).toList).filter
      (fun c => isWordChar c || isPySpace c || c == '-'))⟩

/-- Folder-name derivation exactly as the claim words it: lowercase, remove
every non-word character (keeping the whitespace that is then collapsed), and
replace every maximal whitespace run by a single underscore. -/
def claim_folder_name (name : String) : String :=
  ⟨specCollapseGo false (((pyToLower name).toList).filter
      (fun c => isWordChar c || isPySpace c))⟩

/-- C9, counterexample: a hyphen is a non-word character, yet the code's
first regex `[^\w\s-]` deliberately keeps it, so for a hyphenated term the
actual folder name differs from the claim's description. -/
theorem c9_counterexample :
    _sanitize_folder_name "B-cell Lymphoma" = "b-cell_lymphoma" ∧
    claim_folder_name "B-cell Lymphoma" = "bcell_lymphoma" ∧
    pdf_path_for "B-cell Lymphoma" "NCT0009" =
      "protocols/b-cell_lymphoma/NCT0009_protocol.pdf" ∧
    ¬ _sanitize_folder_name "B-cell Lymphoma" = claim_folder_name "B-cell Lymphoma" := by
  exact ⟨by decide, by decide, by decide, by decide⟩

/-- C9, amended: the storage directory name equals the term lowercased with
every character that is neither a word character, whitespace, nor a hyphen
removed and every maximal whitespace run replaced by a single underscore;
the record's document is stored in that directory under
`{registryID}_protocol.pdf`. -/
theorem c9_theorem (term nct_id : String) :
    _sanitize_folder_name term = spec_folder_name term ∧
    pdf_path_for term nct_id =
      PROTOCOLS_DIR ++ "/" ++ spec_folder_name term ++ "/" ++ nct_id ++ "_protocol.pdf" := by
  have h : _sanitize_folder_name term = spec_folder_name term :=
    congrArg String.mk (collapseWsList_eq_spec _)
  exact ⟨h, by rw [pdf_path_for, h]⟩

/-! ### Claim C10 — skip of an already-downloaded document -/

/-- C10: when downloads are enabled, the record has a (truthy) document URL
and the file already exists at the deterministic path, the document step is a
pure no-op: neither counter advances, the store is untouched (no
`update_pdf_path`), and every store row that satisfied the missing-documents
predicate — e.g. this record's own row when its path was never recorded —
still appears in the missing-documents query afterwards. -/
theorem c10_theorem (fs : List String) (dl_ok : Bool) (ind : String)
    (p : Payload) (nct : String) (db : List Row) (stats : OrchStats) (now : Nat)
    (url : String) (hurl : p.protocol_url = some url) (hne : ¬ url = "")
    (hfs : fs.contains (pdf_path_for ind nct) = true) :
    process_study_doc true fs dl_ok ind p nct db stats now = (db, stats, fs) ∧
    ∀ r ∈ db, missingDocPred r = true →
      r ∈ get_protocols_without_pdf
        (process_study_doc true fs dl_ok ind p nct db stats now).1 none := by
  have h1 : process_study_doc true fs dl_ok ind p nct db stats now = (db, stats, fs) := by
    rw [process_study_doc, hurl]
    dsimp only
    rw [if_pos (by simp [hne]), if_pos hfs]
  refine ⟨h1, ?_⟩
  intro r hr hpred
  rw [h1]
  simp only [get_protocols_without_pdf]
  exact List.mem_filter.mpr ⟨hr, hpred⟩

def c10_row : Row :=
  { nct_id := "NCT0010", indication := some "obesity",
    protocol_url := some "https://clinicaltrials.gov/ProvidedDocs/10/NCT0010/Prot.pdf",
    protocol_pdf_path := none, has_protocol_doc := true }

def c10_payload : Payload :=
  { nct_id := some "NCT0010",
    protocol_url := some "https://clinicaltrials.gov/ProvidedDocs/10/NCT0010/Prot.pdf" }

/-- C10 witness: a concrete record whose file is already on disk; the step
changes nothing and the row stays in the missing-documents set. -/
theorem c10_witness :
    process_study_doc true [pdf_path_for "obesity" "NCT0010"] true "obesity"
        c10_payload "NCT0010" [c10_row] { indication := "obesity" } 9 =
      ([c10_row], { indication := "obesity" }, [pdf_path_for "obesity" "NCT0010"]) ∧
    c10_row ∈ get_protocols_without_pdf
      (process_study_doc true [pdf_path_for "obesity" "NCT0010"] true "obesity"
        c10_payload "NCT0010" [c10_row] { indication := "obesity" } 9).1 none :=
  ⟨(c10_theorem [pdf_path_for "obesity" "NCT0010"] true "obesity" c10_payload "NCT0010"
      [c10_row] { indication := "obesity" } 9 _ rfl (by decide) (by decide)).1,
   (c10_theorem [pdf_path_for "obesity" "NCT0010"] true "obesity" c10_payload "NCT0010"
      [c10_row] { indication := "obesity" } 9 _ rfl (by decide) (by decide)).2
     c10_row (by decide) (by decide)⟩

end ProtocolPipeline
